import Mathlib

/-
Verification of the configuration mutation engine of ledfx/api/config.py:
the trimming validator (validate_and_trim_config), the merge engine
(update_config), the restart classifier (check_need_restart) and the
backup / migrate / replace paths (delete, post) of the ConfigEndpoint.

Python dicts are modelled as insertion-ordered association lists over
String keys; JSON-ish values are modelled by the inductive PyVal.
External collaborators imported by the file but not part of the source
tree (the voluptuous schemas, PERMITTED_KEYS, CORE_CONFIG_KEYS_NO_RESTART,
migrate_config, parse_version) are parameters gathered in an Env record.
-/

set_option autoImplicit false

namespace LedfxConfigApi

/-- Values stored in a configuration mapping: strings, numbers or nested
dictionaries, as produced by JSON decoding of a request body. -/
inductive PyVal where
  | str (s : String)
  | nat (n : Nat)
  | dict (entries : List (String × PyVal))

/-- A Python dict is modelled as an insertion-ordered association list. -/
abbrev AList := List (String × PyVal)

/-- Lookup of a key in a dict (first matching entry). -/
def getA : AList → String → Option PyVal
  | [], _ => none
  | (k, v) :: rest, key => if k = key then some v else getA rest key

/-- The list of keys of a dict, in insertion order (dict.keys()). -/
def keysA (m : AList) : List String := m.map Prod.fst

/-- Membership test for a key (the Python `in` operator on a dict). -/
def hasKeyA (m : AList) (key : String) : Bool := (keysA m).contains key

/-- Assignment d[key] = val: replaces the first entry with this key in
place, or appends a new entry at the end, like a Python dict. -/
def setA : AList → String → PyVal → AList
  | [], key, val => [(key, val)]
  | (k, v) :: rest, key, val =>
    if k = key then (k, val) :: rest else (k, v) :: setA rest key val

/-- Removal of a key from a dict (the effect of dict.pop on the mapping). -/
def eraseA (m : AList) (key : String) : AList :=
  m.filter (fun kv => kv.1 != key)

/-- The dict.update method: each entry of the second dict is assigned
into the first, in order. -/
def updateA : AList → AList → AList
  | m, [] => m
  | m, (k, v) :: rest => updateA (setA m k v) rest

/-- Errors raised by the configuration endpoints: KeyError for an
unknown/forbidden key, KeyError for a lookup of an absent key,
voluptuous MultipleInvalid from a schema, TypeError / AttributeError
from operating on a non-dict value, and the migration failure reported
by the import path. -/
inductive CfgError where
  | unknownKey (node key : String)
  | missingKey (key : String)
  | invalid (msg : String)
  | typeError (key : String)
  | attributeError
  | migrationFailed (msg : String)
deriving DecidableEq

/-- A voluptuous schema: validates a fragment and returns a fully
defaulted mapping, or fails with a validation error message. -/
abbrev Schema := AList → Except String AList

/-- Modelled from the spec: the collaborators imported by the source file
but defined outside it. PERMITTED_KEYS comes from ledfx.api.utils; the
audio / audio-analysis / wled / melbanks / core schemas come from
ledfx.effects.audio, ledfx.config and ledfx.effects.melbank;
CORE_CONFIG_KEYS_NO_RESTART and migrate_config come from ledfx.config.
versionMatches abstracts the tolerant parse_version comparison of
the import path: it receives the value stored under the key
configuration_version (or none when the key is absent, treated as a
mismatch by the code via the caught KeyError). -/
structure Env where
  PERMITTED_KEYS : String → List String
  AUDIO_CONFIG_SCHEMA : Schema
  AUDIO_ANALYSIS_CONFIG_SCHEMA : Schema
  WLED_CONFIG_SCHEMA : Schema
  MELBANKS_CONFIG_SCHEMA : Schema
  CORE_CONFIG_SCHEMA : Schema
  CORE_CONFIG_KEYS_NO_RESTART : List String
  migrate_config : AList → Except String AList
  versionMatches : Option PyVal → Bool

/-- The permitted-key loop of validate_and_trim_config: raises KeyError
on the first key that is neither in PERMITTED_KEYS[node] nor equal to
the cross-cutting exception key user_presets. -/
def checkKeys (permitted : List String) (node : String) : List String → Except CfgError Unit
  | [] => .ok ()
  | k :: ks =>
    if k ∉ permitted ∧ k ≠ "user_presets" then .error (.unknownKey node k)
    else checkKeys permitted node ks

/-- The trimming dict comprehension of validate_and_trim_config:
builds the mapping key -> validated_config[key] for the submitted keys,
raising KeyError on the first submitted key absent from the validated
output. -/
def trimTo (validated : AList) : List String → Except CfgError AList
  | [] => .ok []
  | k :: ks =>
    match getA validated k with
    | none => .error (.missingKey k)
    | some v =>
      match trimTo validated ks with
      | .error e => .error e
      | .ok rest => .ok ((k, v) :: rest)

/-- Translation of validate_and_trim_config(config, schema, node):
reject unknown keys, run the schema, trim the validated output back to
the submitted keys. -/
def validate_and_trim_config (env : Env) (config : AList) (schema : Schema) (node : String) : Except CfgError AList :=
  match checkKeys (env.PERMITTED_KEYS node) node (keysA config) with
  | .error e => .error e
  | .ok _ =>
    match schema config with
    | .error msg => .error (.invalid msg)
    | .ok validated_config => trimTo validated_config (keysA config)

/-- Translation of ConfigEndpoint.check_need_restart: re-validate and
trim the fragment against the core schema; an empty trimmed fragment
needs no restart; otherwise a restart is needed unless some key of
CORE_CONFIG_KEYS_NO_RESTART is present in the trimmed fragment. -/
def check_need_restart (env : Env) (config : AList) : Except CfgError Bool :=
  match validate_and_trim_config env config env.CORE_CONFIG_SCHEMA "core" with
  | .error e => .error e
  | .ok core_config =>
    if core_config.isEmpty then .ok false
    else .ok (!(env.CORE_CONFIG_KEYS_NO_RESTART.any (fun key => hasKeyA core_config key)))

/-- The pieces of runtime state touched by update_config: the live
configuration dict self._ledfx.config, the presence of the audio
attribute (hasattr / is None checks at the end of update_config), the
payloads of fired BaseConfigUpdateEvent events, and the payloads passed
to the audio / melbanks collaborator update_config notifications. -/
structure MState where
  live : AList
  hasAudioAttr : Bool
  audioIsNone : Bool
  events : List AList
  notifications : List (String × Option PyVal)

/-- The Python return value of update_config, modelled explicitly so
that the spec's claimed contract (returning the set of changed
namespaces) can be compared with what the code actually returns. -/
inductive PyReturn where
  | none
  | namespaceSet (s : List String)
deriving DecidableEq

/-- Result of a successful update_config call: the caller's mapping
after the in-place pops of the audio, wled_preferences and melbanks
keys, and the function's Python return value. -/
structure UCOk where
  residual : AList
  retval : PyReturn

/-- The config.pop(key, {}) idiom followed by use of the popped value as
a dict: yields the entries of the popped sub-dict (empty when the key is
absent) and the mapping with the key removed; a non-dict value at the
key is a type error when subsequently iterated. -/
def popDict (m : AList) (key : String) : Except CfgError (AList × AList) :=
  match getA m key with
  | Option.none => .ok ([], m)
  | some (.dict d) => .ok (d, eraseA m key)
  | some _ => .error (.typeError key)

/-- The statement self._ledfx.config[key].update(frag): KeyError when the
key is absent from the live dict, AttributeError-like failure when its
value is not a dict, otherwise an in-place shallow merge of frag into
the nested dict. -/
def updateNested (live : AList) (key : String) (frag : AList) : Except CfgError AList :=
  match getA live key with
  | some (.dict d) => .ok (setA live key (.dict (updateA d frag)))
  | some _ => .error (.typeError key)
  | Option.none => .error (.missingKey key)

/-- The wled_preferences loop of update_config: for each validated
top-level key, merge into the existing nested dict when the key is
already present in the live wled_preferences namespace, otherwise set
the whole value. Re-reads the live namespace at each iteration, as the
Python loop does; on an error the live dict merged so far is returned
alongside the error. -/
def wledApply : AList → AList → Option CfgError × AList
  | live, [] => (Option.none, live)
  | live, (k, v) :: rest =>
    match getA live "wled_preferences" with
    | some (.dict prefs) =>
      match getA prefs k with
      | some (.dict d) =>
        match v with
        | .dict dv =>
          wledApply (setA live "wled_preferences" (.dict (setA prefs k (.dict (updateA d dv))))) rest
        | _ => (some (.typeError k), live)
      | some _ => (some (.typeError k), live)
      | Option.none => wledApply (setA live "wled_preferences" (.dict (setA prefs k v))) rest
    | some _ => (some (.typeError "wled_preferences"), live)
    | Option.none => (some (.missingKey "wled_preferences"), live)

/-- The validated fragments computed by the first half of update_config,
together with the residual caller mapping after the three pops. -/
structure Fragments where
  audio_config : AList
  wled_config : AList
  melbanks_config : AList
  core_config : AList
  residual : AList

/-- The validation half of update_config in source order: pop and
doubly validate audio, pop and validate wled_preferences, pop and
validate melbanks, validate the residual mapping as core. -/
def validatePhase (env : Env) (config : AList) : Except CfgError Fragments :=
  match popDict config "audio" with
  | .error e => .error e
  | .ok (audioRaw, config1) =>
  match validate_and_trim_config env audioRaw env.AUDIO_CONFIG_SCHEMA "audio" with
  | .error e => .error e
  | .ok audio1 =>
  match validate_and_trim_config env audio1 env.AUDIO_ANALYSIS_CONFIG_SCHEMA "audio" with
  | .error e => .error e
  | .ok audio_config =>
  match popDict config1 "wled_preferences" with
  | .error e => .error e
  | .ok (wledRaw, config2) =>
  match validate_and_trim_config env wledRaw env.WLED_CONFIG_SCHEMA "wled_preferences" with
  | .error e => .error e
  | .ok wled_config =>
  match popDict config2 "melbanks" with
  | .error e => .error e
  | .ok (melRaw, config3) =>
  match validate_and_trim_config env melRaw env.MELBANKS_CONFIG_SCHEMA "melbanks" with
  | .error e => .error e
  | .ok melbanks_config =>
  match validate_and_trim_config env config3 env.CORE_CONFIG_SCHEMA "core" with
  | .error e => .error e
  | .ok core_config => .ok ⟨audio_config, wled_config, melbanks_config, core_config, config3⟩

/-- The notification tail of update_config: notify the audio subsystem
when present and the audio fragment is non-empty, notify melbanks (an
AttributeError when the audio attribute is None), and fire a
BaseConfigUpdateEvent carrying the residual mapping when the core
fragment is non-empty. The function returns None. -/
def notifyPhase (s : MState) (v : Fragments) : Except CfgError UCOk × MState :=
  let s1 := if s.hasAudioAttr && !s.audioIsNone && !v.audio_config.isEmpty then
      { s with notifications := s.notifications ++ [("audio", getA s.live "audio")] }
    else s
  if s1.hasAudioAttr && !v.melbanks_config.isEmpty then
    if s1.audioIsNone then (.error .attributeError, s1)
    else
      let s2 := { s1 with notifications := s1.notifications ++ [("melbanks", getA s1.live "melbanks")] }
      (.ok ⟨v.residual, .none⟩,
        if v.core_config.isEmpty then s2 else { s2 with events := s2.events ++ [v.residual] })
  else
    (.ok ⟨v.residual, .none⟩,
      if v.core_config.isEmpty then s1 else { s1 with events := s1.events ++ [v.residual] })

/-- The mutation half of update_config in source order: shallow merge of
the audio fragment into the live audio dict, of the melbanks fragment
into the live melbanks dict, of the core fragment into the live top
level, then the two-level wled_preferences merge, then notifications.
A failure mid-merge leaves the mutations already performed in place. -/
def mutatePhase (s : MState) (v : Fragments) : Except CfgError UCOk × MState :=
  match updateNested s.live "audio" v.audio_config with
  | .error e => (.error e, s)
  | .ok live1 =>
  match updateNested live1 "melbanks" v.melbanks_config with
  | .error e => (.error e, { s with live := live1 })
  | .ok live2 =>
  let live3 := updateA live2 v.core_config
  match wledApply live3 v.wled_config with
  | (some e, live4) => (.error e, { s with live := live4 })
  | (Option.none, live4) => notifyPhase { s with live := live4 } v

/-- Translation of ConfigEndpoint.update_config(config): the full chain
in source line order — pops and validations of every namespace first,
then the per-namespace merges into the live configuration, then the
notifications. A raised validation error leaves the state untouched. -/
def update_config (env : Env) (s : MState) (config : AList) : Except CfgError UCOk × MState :=
  match popDict config "audio" with
  | .error e => (.error e, s)
  | .ok (audioRaw, config1) =>
  match validate_and_trim_config env audioRaw env.AUDIO_CONFIG_SCHEMA "audio" with
  | .error e => (.error e, s)
  | .ok audio1 =>
  match validate_and_trim_config env audio1 env.AUDIO_ANALYSIS_CONFIG_SCHEMA "audio" with
  | .error e => (.error e, s)
  | .ok audio_config =>
  match popDict config1 "wled_preferences" with
  | .error e => (.error e, s)
  | .ok (wledRaw, config2) =>
  match validate_and_trim_config env wledRaw env.WLED_CONFIG_SCHEMA "wled_preferences" with
  | .error e => (.error e, s)
  | .ok wled_config =>
  match popDict config2 "melbanks" with
  | .error e => (.error e, s)
  | .ok (melRaw, config3) =>
  match validate_and_trim_config env melRaw env.MELBANKS_CONFIG_SCHEMA "melbanks" with
  | .error e => (.error e, s)
  | .ok melbanks_config =>
  match validate_and_trim_config env config3 env.CORE_CONFIG_SCHEMA "core" with
  | .error e => (.error e, s)
  | .ok core_config =>
  match updateNested s.live "audio" audio_config with
  | .error e => (.error e, s)
  | .ok live1 =>
  match updateNested live1 "melbanks" melbanks_config with
  | .error e => (.error e, { s with live := live1 })
  | .ok live2 =>
  let live3 := updateA live2 core_config
  match wledApply live3 wled_config with
  | (some e, live4) => (.error e, { s with live := live4 })
  | (Option.none, live4) =>
    notifyPhase { s with live := live4 } ⟨audio_config, wled_config, melbanks_config, core_config, config3⟩

/-- Observable outcome of a successful PUT handler run: the payload of
the BaseConfigUpdateEvent fired after update_config, the configuration
persisted by save_config, and the restart decision. -/
structure PutOutcome where
  firedEvent : AList
  persisted : AList
  needRestart : Bool

/-- Translation of the success path of ConfigEndpoint.put after JSON
decoding: update_config on the request mapping, a BaseConfigUpdateEvent
carrying the (by now mutated) request mapping, save_config of the live
configuration, then check_need_restart on the same mutated mapping. -/
def putApply (env : Env) (s : MState) (config : AList) : Except CfgError PutOutcome × MState :=
  match update_config env s config with
  | (.error e, s1) => (.error e, s1)
  | (.ok r, s1) =>
    let s2 := { s1 with events := s1.events ++ [r.residual] }
    match check_need_restart env r.residual with
    | .error e => (.error e, s2)
    | .ok b => (.ok ⟨r.residual, s2.live, b⟩, s2)

/-- Externally visible actions of the destructive endpoints, in the
order they are performed: create_backup with its reason tag, assignment
of a new value to self._ledfx.config, save_config, the scheduled
restart, and the HTTP response. -/
inductive Action where
  | backup (reason : String)
  | setLiveConfig (c : AList)
  | persist (c : AList)
  | scheduleRestart
  | respondSuccess
  | respondError (e : CfgError)

/-- Recognizer for backup actions. -/
def isBackup : Action → Bool
  | .backup _ => true
  | _ => false

/-- Recognizer for live-configuration replacement actions. -/
def isSetLive : Action → Bool
  | .setLiveConfig _ => true
  | _ => false

/-- Recognizer for persistence actions. -/
def isPersist : Action → Bool
  | .persist _ => true
  | _ => false

/-- Translation of ConfigEndpoint.delete: backup with reason DELETE,
replace the live configuration with the core schema applied to an empty
mapping, persist, schedule the restart and respond. A schema failure
(which the handler does not catch) propagates after the backup. -/
def deleteOp (env : Env) (st : AList) : List Action × AList × Except CfgError Unit :=
  match env.CORE_CONFIG_SCHEMA [] with
  | .error msg => ([Action.backup "DELETE"], st, .error (.invalid msg))
  | .ok c =>
    ([Action.backup "DELETE", Action.setLiveConfig c, Action.persist c,
      Action.scheduleRestart, Action.respondSuccess], c, .ok ())

/-- The assembly half of ConfigEndpoint.post after the version gate: pop
and fully validate (without trimming) the audio, wled_preferences and
melbanks sub-mappings, validate the residual as core, and write the
three validated sub-mappings back into the core result. -/
def postAssemble (env : Env) (config : AList) : Except CfgError AList :=
  match popDict config "audio" with
  | .error e => .error e
  | .ok (audioRaw, config1) =>
  match env.AUDIO_CONFIG_SCHEMA audioRaw with
  | .error msg => .error (.invalid msg)
  | .ok audio_config =>
  match popDict config1 "wled_preferences" with
  | .error e => .error e
  | .ok (wledRaw, config2) =>
  match env.WLED_CONFIG_SCHEMA wledRaw with
  | .error msg => .error (.invalid msg)
  | .ok wled_config =>
  match popDict config2 "melbanks" with
  | .error e => .error e
  | .ok (melRaw, config3) =>
  match env.MELBANKS_CONFIG_SCHEMA melRaw with
  | .error msg => .error (.invalid msg)
  | .ok melbanks_config =>
  match env.CORE_CONFIG_SCHEMA config3 with
  | .error msg => .error (.invalid msg)
  | .ok core_config =>
    .ok (setA (setA (setA core_config "audio" (.dict audio_config))
      "wled_preferences" (.dict wled_config)) "melbanks" (.dict melbanks_config))

/-- The version gate of ConfigEndpoint.post: the caught assert over
parse_version, falling back to migrate_config on a mismatch or a missing
tag, with a transform failure reported as a migration error. -/
def resolveVersion (env : Env) (config : AList) : Except CfgError AList :=
  if env.versionMatches (getA config "configuration_version") then .ok config
  else
    match env.migrate_config config with
    | .ok c => .ok c
    | .error msg => .error (.migrationFailed msg)

/-- Translation of ConfigEndpoint.post after JSON decoding: compare the
configuration_version tag with the current version; on mismatch run the
external migration transform, whose failure is reported before any
backup; then backup with reason IMPORT, assemble the full normalized
configuration, replace the live configuration wholesale, persist and
schedule a restart. A schema failure during assembly is reported after
the backup, with the live configuration unchanged. -/
def postOp (env : Env) (st : AList) (config : AList) : List Action × AList :=
  match resolveVersion env config with
  | .error e => ([Action.respondError e], st)
  | .ok config =>
    match postAssemble env config with
    | .error e => ([Action.backup "IMPORT", Action.respondError e], st)
    | .ok core =>
      ([Action.backup "IMPORT", Action.setLiveConfig core, Action.persist core,
        Action.scheduleRestart, Action.respondSuccess], core)

/-- The backup-before-replace discipline over an action trace: exactly
one backup, exactly one replacement of the live configuration, and no
replacement anywhere before the backup. -/
def backupOnceBeforeReplace (t : List Action) : Prop :=
  t.countP (fun a => isBackup a) = 1 ∧
  t.countP (fun a => isSetLive a) = 1 ∧
  (t.takeWhile (fun a => !isBackup a)).countP (fun a => isSetLive a) = 0

/-- A small concrete permitted-key table used to exercise the engine on
closed inputs. -/
def toyPermitted : String → List String := fun node =>
  if node = "audio" then ["device", "volume"]
  else if node = "wled_preferences" then ["dev1", "dev2"]
  else if node = "melbanks" then ["bands"]
  else if node = "core" then ["brightness", "port", "host"]
  else []

/-- A defaulting schema for concrete runs: overlays the submitted
fragment on a table of defaults, as a voluptuous schema with default
values does on well-typed input. -/
def toySchemaWith (defaults : AList) : Schema := fun f => .ok (updateA defaults f)

/-- Default core table of the toy environment, containing the three
nested namespaces as the real core schema does. -/
def toyCoreDefaults : AList :=
  [("brightness", .nat 1), ("port", .nat 8888), ("host", .str "localhost"),
   ("audio", .dict []), ("melbanks", .dict []), ("wled_preferences", .dict [])]

/-- A concrete environment for closed evaluations of the engine. -/
def toyEnv : Env where
  PERMITTED_KEYS := toyPermitted
  AUDIO_CONFIG_SCHEMA := toySchemaWith [("device", .str "default"), ("volume", .nat 50)]
  AUDIO_ANALYSIS_CONFIG_SCHEMA := toySchemaWith [("device", .str "default"), ("volume", .nat 50)]
  WLED_CONFIG_SCHEMA := toySchemaWith []
  MELBANKS_CONFIG_SCHEMA := toySchemaWith [("bands", .nat 24)]
  CORE_CONFIG_SCHEMA := toySchemaWith toyCoreDefaults
  CORE_CONFIG_KEYS_NO_RESTART := ["brightness"]
  migrate_config := fun _ => .error "no transform registered"
  versionMatches := fun v =>
    match v with
    | some (.str s) => s == "1.0"
    | _ => false

/-- A concrete live configuration with every namespace populated. -/
def toyLive : AList :=
  [("brightness", .nat 1), ("port", .nat 8888), ("host", .str "localhost"),
   ("audio", .dict [("device", .str "mic0"), ("volume", .nat 50)]),
   ("melbanks", .dict [("bands", .nat 24)]),
   ("wled_preferences", .dict [("dev1", .dict [("ip", .str "10.0.0.2")])])]

/-- A concrete runtime state around toyLive, with no audio attribute. -/
def toyState : MState where
  live := toyLive
  hasAudioAttr := false
  audioIsNone := true
  events := []
  notifications := []

theorem getA_setA_self (m : AList) (key : String) (val : PyVal) :
    getA (setA m key val) key = some val := by
  induction m with
  | nil => simp [setA, getA]
  | cons kv rest ih =>
    obtain ⟨k, v⟩ := kv
    by_cases h : k = key
    · subst h; simp [setA, getA]
    · simp [setA, getA, h, ih]

theorem getA_setA_ne (m : AList) (key k' : String) (val : PyVal) (hne : k' ≠ key) :
    getA (setA m key val) k' = getA m k' := by
  induction m with
  | nil =>
    have h0 : ¬key = k' := fun h => hne h.symm
    simp [setA, getA, h0]
  | cons kv rest ih =>
    obtain ⟨k, v⟩ := kv
    by_cases h : k = key
    · subst h
      have h0 : k ≠ k' := fun h2 => hne h2.symm
      simp [setA, getA, h0]
    · simp only [setA, if_neg h]
      by_cases h2 : k = k'
      · simp [getA, h2]
      · simp [getA, h2, ih]

theorem getA_eq_none_iff {m : AList} {k : String} :
    getA m k = none ↔ k ∉ keysA m := by
  induction m with
  | nil => simp [getA, keysA]
  | cons kv rest ih =>
    obtain ⟨k0, v0⟩ := kv
    by_cases h : k0 = k
    · subst h; simp [getA, keysA]
    · have hne : ¬k = k0 := fun h2 => h h2.symm
      simp [getA, keysA, h, ih, hne]

theorem eraseA_of_notMem {m : AList} {k : String} (h : k ∉ keysA m) :
    eraseA m k = m := by
  refine List.filter_eq_self.mpr ?_
  intro kv hkv
  have : kv.1 ∈ keysA m := List.mem_map.mpr ⟨kv, hkv, rfl⟩
  simp only [bne_iff_ne, ne_eq]
  intro h2
  exact h (h2 ▸ this)

theorem mem_keysA_eraseA {m : AList} {a k : String} :
    k ∈ keysA (eraseA m a) ↔ k ≠ a ∧ k ∈ keysA m := by
  simp only [keysA, eraseA, List.mem_map, List.mem_filter, bne_iff_ne, ne_eq]
  constructor
  · rintro ⟨⟨k1, v⟩, ⟨hm, hne⟩, rfl⟩
    exact ⟨hne, ⟨(k1, v), hm, rfl⟩⟩
  · rintro ⟨hne, ⟨⟨k1, v⟩, hm, rfl⟩⟩
    exact ⟨⟨k1, v⟩, ⟨hm, hne⟩, rfl⟩

theorem getA_updateA_notMem : ∀ (o m : AList) (k : String), k ∉ keysA o →
    getA (updateA m o) k = getA m k
  | [], m, k, _ => rfl
  | (k0, v0) :: rest, m, k, h => by
    simp only [keysA, List.map_cons, List.mem_cons, not_or] at h
    obtain ⟨h1, h2⟩ := h
    rw [updateA, getA_updateA_notMem rest (setA m k0 v0) k h2]
    exact getA_setA_ne m k0 k v0 h1

theorem getA_updateA_mem : ∀ (o m : AList) (k : String), (keysA o).Nodup → k ∈ keysA o →
    getA (updateA m o) k = getA o k
  | [], _, k, _, h => by simp [keysA] at h
  | (k0, v0) :: rest, m, k, hnd, hmem => by
    simp only [keysA, List.map_cons, List.nodup_cons] at hnd
    obtain ⟨hk0, hndr⟩ := hnd
    simp only [keysA, List.map_cons, List.mem_cons] at hmem
    rcases hmem with rfl | hmem
    · rw [updateA, getA_updateA_notMem rest (setA m k v0) k hk0, getA_setA_self]
      simp [getA]
    · have hne : k0 ≠ k := fun h => hk0 (h ▸ hmem)
      rw [updateA, getA_updateA_mem rest (setA m k0 v0) k hndr hmem]
      simp [getA, hne]

theorem trimTo_ok_keys : ∀ {ks : List String} {v r : AList}, trimTo v ks = .ok r →
    keysA r = ks := by
  intro ks
  induction ks with
  | nil => intro v r h; simp only [trimTo] at h; cases h; rfl
  | cons k ks ih =>
    intro v r h
    simp only [trimTo] at h
    cases h1 : getA v k with
    | none => rw [h1] at h; cases h
    | some val =>
      rw [h1] at h
      cases h2 : trimTo v ks with
      | error e => rw [h2] at h; cases h
      | ok rest =>
        rw [h2] at h
        cases h
        show keysA ((k, val) :: rest) = k :: ks
        rw [show keysA ((k, val) :: rest) = k :: keysA rest from rfl, ih h2]

theorem trimTo_error_of_none : ∀ {ks : List String} {v : AList},
    (∃ k ∈ ks, getA v k = none) → ∃ k', trimTo v ks = .error (.missingKey k') := by
  intro ks
  induction ks with
  | nil => rintro v ⟨k, hk, _⟩; cases hk
  | cons k0 ks ih =>
    rintro v ⟨k, hk, hnone⟩
    cases h1 : getA v k0 with
    | none => exact ⟨k0, by simp [trimTo, h1]⟩
    | some val =>
      rcases List.mem_cons.mp hk with rfl | hk2
      · rw [h1] at hnone; cases hnone
      · obtain ⟨k', hk'⟩ := ih ⟨k, hk2, hnone⟩
        exact ⟨k', by simp [trimTo, h1, hk']⟩

theorem checkKeys_error_of_bad : ∀ {ks : List String} {p : List String} (node : String),
    (∃ k ∈ ks, k ∉ p ∧ k ≠ "user_presets") →
    ∃ k', (k' ∈ ks ∧ k' ∉ p ∧ k' ≠ "user_presets") ∧
      checkKeys p node ks = .error (.unknownKey node k') := by
  intro ks
  induction ks with
  | nil => rintro p node ⟨k, hk, _⟩; cases hk
  | cons k0 ks ih =>
    rintro p node ⟨k, hk, hbad⟩
    by_cases h0 : k0 ∉ p ∧ k0 ≠ "user_presets"
    · exact ⟨k0, ⟨List.mem_cons_self _ _, h0⟩, by simp [checkKeys, h0]⟩
    · rcases List.mem_cons.mp hk with rfl | hk2
      · exact absurd hbad h0
      · obtain ⟨k', hk', hres⟩ := ih node ⟨k, hk2, hbad⟩
        exact ⟨k', ⟨List.mem_cons_of_mem _ hk'.1, hk'.2⟩, by simp [checkKeys, h0, hres]⟩

theorem checkKeys_ok_of_good : ∀ {ks : List String} {p : List String} {node : String},
    (∀ k ∈ ks, k ∈ p ∨ k = "user_presets") → checkKeys p node ks = .ok () := by
  intro ks
  induction ks with
  | nil => intro p node _; rfl
  | cons k0 ks ih =>
    intro p node h
    have h0 := h k0 (List.mem_cons_self _ _)
    have : ¬(k0 ∉ p ∧ k0 ≠ "user_presets") := by tauto
    simp only [checkKeys, if_neg this]
    exact ih fun k hk => h k (List.mem_cons_of_mem _ hk)

theorem vtc_ok_keys {env : Env} {f : AList} {schema : Schema} {node : String} {r : AList}
    (h : validate_and_trim_config env f schema node = .ok r) : keysA r = keysA f := by
  unfold validate_and_trim_config at h
  cases h1 : checkKeys (env.PERMITTED_KEYS node) node (keysA f) with
  | error e => rw [h1] at h; cases h
  | ok u =>
    rw [h1] at h
    cases h2 : schema f with
    | error msg => rw [h2] at h; cases h
    | ok v => rw [h2] at h; exact trimTo_ok_keys h

theorem popDict_ok_snd {m : AList} {k : String} {d m' : AList}
    (h : popDict m k = .ok (d, m')) : m' = eraseA m k := by
  unfold popDict at h
  cases h1 : getA m k with
  | none =>
    rw [h1] at h
    cases h
    exact (eraseA_of_notMem (getA_eq_none_iff.mp h1)).symm
  | some v =>
    rw [h1] at h
    cases v with
    | dict dd => cases h; rfl
    | str s => cases h
    | nat n => cases h

theorem update_config_factor (env : Env) (s : MState) (config : AList) :
    update_config env s config =
      match validatePhase env config with
      | .error e => (.error e, s)
      | .ok v => mutatePhase s v := by
  unfold update_config validatePhase mutatePhase
  cases popDict config "audio" with
  | error e => rfl
  | ok p =>
    obtain ⟨audioRaw, config1⟩ := p
    dsimp only
    cases validate_and_trim_config env audioRaw env.AUDIO_CONFIG_SCHEMA "audio" with
    | error e => rfl
    | ok audio1 =>
      dsimp only
      cases validate_and_trim_config env audio1 env.AUDIO_ANALYSIS_CONFIG_SCHEMA "audio" with
      | error e => rfl
      | ok audio_config =>
        dsimp only
        cases popDict config1 "wled_preferences" with
        | error e => rfl
        | ok p2 =>
          obtain ⟨wledRaw, config2⟩ := p2
          dsimp only
          cases validate_and_trim_config env wledRaw env.WLED_CONFIG_SCHEMA "wled_preferences" with
          | error e => rfl
          | ok wled_config =>
            dsimp only
            cases popDict config2 "melbanks" with
            | error e => rfl
            | ok p3 =>
              obtain ⟨melRaw, config3⟩ := p3
              dsimp only
              cases validate_and_trim_config env melRaw env.MELBANKS_CONFIG_SCHEMA "melbanks" with
              | error e => rfl
              | ok melbanks_config =>
                dsimp only
                cases validate_and_trim_config env config3 env.CORE_CONFIG_SCHEMA "core" with
                | error e => rfl
                | ok core_config => rfl

theorem notifyPhase_live (s : MState) (v : Fragments) :
    ((notifyPhase s v).2).live = s.live := by
  unfold notifyPhase
  dsimp only
  repeat' split
  all_goals rfl

theorem notifyPhase_ok_spec {s : MState} {v : Fragments} {r : UCOk} {s' : MState}
    (h : notifyPhase s v = (.ok r, s')) :
    r = ⟨v.residual, PyReturn.none⟩ ∧ s'.live = s.live := by
  constructor
  · have h1 : (notifyPhase s v).1 = .ok r := by rw [h]
    unfold notifyPhase at h1
    dsimp only at h1
    repeat' split at h1
    all_goals dsimp only at h1
    all_goals (cases h1 <;> rfl)
  · have h2 : (notifyPhase s v).2 = s' := by rw [h]
    rw [← h2, notifyPhase_live]

theorem updateNested_ok_spec {live : AList} {key : String} {frag out : AList}
    (h : updateNested live key frag = .ok out) :
    ∃ d, getA live key = some (.dict d) ∧ out = setA live key (.dict (updateA d frag)) := by
  unfold updateNested at h
  cases h1 : getA live key with
  | none => rw [h1] at h; cases h
  | some v =>
    rw [h1] at h
    cases v with
    | dict d => cases h; exact ⟨d, rfl, rfl⟩
    | str sv => cases h
    | nat n => cases h

theorem mutatePhase_ok_spec {s : MState} {v : Fragments} {r : UCOk} {s' : MState}
    (h : mutatePhase s v = (.ok r, s')) :
    r = ⟨v.residual, PyReturn.none⟩ ∧
    ∃ live1 live2 live4,
      updateNested s.live "audio" v.audio_config = .ok live1 ∧
      updateNested live1 "melbanks" v.melbanks_config = .ok live2 ∧
      wledApply (updateA live2 v.core_config) v.wled_config = (Option.none, live4) ∧
      s'.live = live4 := by
  unfold mutatePhase at h
  cases h1 : updateNested s.live "audio" v.audio_config with
  | error e => rw [h1] at h; cases h
  | ok live1 =>
    rw [h1] at h
    dsimp only at h
    cases h2 : updateNested live1 "melbanks" v.melbanks_config with
    | error e => rw [h2] at h; cases h
    | ok live2 =>
      rw [h2] at h
      try dsimp only at h
      cases h3 : wledApply (updateA live2 v.core_config) v.wled_config with
      | mk oe live4 =>
        rw [h3] at h
        try dsimp only at h
        cases oe with
        | some e => cases h
        | none =>
          obtain ⟨hr, hlive⟩ := notifyPhase_ok_spec h
          exact ⟨hr, live1, live2, live4, rfl, h2, h3, hlive⟩

theorem wledApply_frame {k : String} (hk : k ≠ "wled_preferences") :
    ∀ (es : AList) (live : AList) {res : Option CfgError} {live' : AList},
    wledApply live es = (res, live') → getA live' k = getA live k := by
  intro es
  induction es with
  | nil => intro live res live' h; cases h; rfl
  | cons e0 rest ih =>
    obtain ⟨k0, v0⟩ := e0
    intro live res live' h
    unfold wledApply at h
    cases h1 : getA live "wled_preferences" with
    | none => rw [h1] at h; cases h; rfl
    | some pv =>
      rw [h1] at h
      cases pv with
      | str sv => cases h; rfl
      | nat n => cases h; rfl
      | dict prefs =>
        try dsimp only at h
        cases h2 : getA prefs k0 with
        | none =>
          rw [h2] at h
          try dsimp only at h
          rw [ih _ h, getA_setA_ne _ _ _ _ hk]
        | some pv2 =>
          rw [h2] at h
          try dsimp only at h
          cases pv2 with
          | str sv => cases h; rfl
          | nat n => cases h; rfl
          | dict d =>
            cases v0 with
            | str sv => cases h; rfl
            | nat n => cases h; rfl
            | dict dv =>
              rw [ih _ h, getA_setA_ne _ _ _ _ hk]

/-- The per-key effect of the wled_preferences two-level merge claimed by
the specification: merged one level deep when the key already exists as
a nested mapping, set wholesale when the key is new. -/
def mergeStep (w : AList) (k : String) (vv : PyVal) (w' : AList) : Prop :=
  (∃ d dv, getA w k = some (.dict d) ∧ vv = .dict dv ∧
    getA w' k = some (.dict (updateA d dv))) ∨
  (getA w k = none ∧ getA w' k = some vv)

theorem mem_keysA_of_mem {es : AList} {k : String} {vv : PyVal} (h : (k, vv) ∈ es) :
    k ∈ keysA es := List.mem_map.mpr ⟨(k, vv), h, rfl⟩

theorem wledApply_ok_char : ∀ (es : AList) (live w : AList) {live' : AList},
    wledApply live es = (Option.none, live') →
    getA live "wled_preferences" = some (.dict w) →
    (keysA es).Nodup →
    ∃ w', getA live' "wled_preferences" = some (.dict w') ∧
      (∀ k, k ∉ keysA es → getA w' k = getA w k) ∧
      (∀ k vv, (k, vv) ∈ es → mergeStep w k vv w') := by
  intro es
  induction es with
  | nil =>
    intro live w live' h hw _
    cases h
    exact ⟨w, hw, fun k _ => rfl, fun k vv hm => absurd hm (List.not_mem_nil _)⟩
  | cons e0 rest ih =>
    obtain ⟨k0, v0⟩ := e0
    intro live w live' h hw hnd
    simp only [keysA, List.map_cons, List.nodup_cons] at hnd
    obtain ⟨hk0, hndr⟩ := hnd
    unfold wledApply at h
    rw [hw] at h
    try dsimp only at h
    cases h2 : getA w k0 with
    | none =>
      rw [h2] at h
      try dsimp only at h
      have hw2 : getA (setA live "wled_preferences" (.dict (setA w k0 v0))) "wled_preferences"
          = some (.dict (setA w k0 v0)) := getA_setA_self _ _ _
      obtain ⟨w', hw', hframe, hmem⟩ := ih _ _ h hw2 hndr
      refine ⟨w', hw', ?_, ?_⟩
      · intro k hk
        simp only [keysA, List.map_cons, List.mem_cons, not_or] at hk
        obtain ⟨hkne, hkrest⟩ := hk
        rw [hframe k hkrest, getA_setA_ne _ _ _ _ hkne]
      · intro k vv hm
        rcases List.mem_cons.mp hm with heq | hm2
        · obtain ⟨rfl, rfl⟩ := Prod.mk.injEq .. ▸ heq
          right
          refine ⟨h2, ?_⟩
          rw [hframe k hk0, getA_setA_self]
        · have hkne : k ≠ k0 := fun he => hk0 (he ▸ mem_keysA_of_mem hm2)
          have hstep := hmem k vv hm2
          unfold mergeStep at hstep ⊢
          rw [getA_setA_ne _ _ _ _ hkne] at hstep
          exact hstep
    | some pv2 =>
      rw [h2] at h
      try dsimp only at h
      cases pv2 with
      | str sv => cases h
      | nat n => cases h
      | dict d =>
        cases v0 with
        | str sv => cases h
        | nat n => cases h
        | dict dv =>
          have hw2 : getA (setA live "wled_preferences" (.dict (setA w k0 (.dict (updateA d dv))))) "wled_preferences"
              = some (.dict (setA w k0 (.dict (updateA d dv)))) := getA_setA_self _ _ _
          obtain ⟨w', hw', hframe, hmem⟩ := ih _ _ h hw2 hndr
          refine ⟨w', hw', ?_, ?_⟩
          · intro k hk
            simp only [keysA, List.map_cons, List.mem_cons, not_or] at hk
            obtain ⟨hkne, hkrest⟩ := hk
            rw [hframe k hkrest, getA_setA_ne _ _ _ _ hkne]
          · intro k vv hm
            rcases List.mem_cons.mp hm with heq | hm2
            · obtain ⟨rfl, rfl⟩ := Prod.mk.injEq .. ▸ heq
              left
              refine ⟨d, dv, h2, rfl, ?_⟩
              rw [hframe k hk0, getA_setA_self]
            · have hkne : k ≠ k0 := fun he => hk0 (he ▸ mem_keysA_of_mem hm2)
              have hstep := hmem k vv hm2
              unfold mergeStep at hstep ⊢
              rw [getA_setA_ne _ _ _ _ hkne] at hstep
              exact hstep

theorem validatePhase_ok_spec {env : Env} {config : AList} {v : Fragments}
    (h : validatePhase env config = .ok v) :
    v.residual = eraseA (eraseA (eraseA config "audio") "wled_preferences") "melbanks" ∧
    validate_and_trim_config env v.residual env.CORE_CONFIG_SCHEMA "core" = .ok v.core_config ∧
    keysA v.core_config = keysA v.residual := by
  unfold validatePhase at h
  cases hp1 : popDict config "audio" with
  | error e => rw [hp1] at h; cases h
  | ok p1 =>
    obtain ⟨audioRaw, config1⟩ := p1
    rw [hp1] at h
    try dsimp only at h
    cases hv1 : validate_and_trim_config env audioRaw env.AUDIO_CONFIG_SCHEMA "audio" with
    | error e => rw [hv1] at h; cases h
    | ok audio1 =>
      rw [hv1] at h
      try dsimp only at h
      cases hv2 : validate_and_trim_config env audio1 env.AUDIO_ANALYSIS_CONFIG_SCHEMA "audio" with
      | error e => rw [hv2] at h; cases h
      | ok audio_config =>
        rw [hv2] at h
        try dsimp only at h
        cases hp2 : popDict config1 "wled_preferences" with
        | error e => rw [hp2] at h; cases h
        | ok p2 =>
          obtain ⟨wledRaw, config2⟩ := p2
          rw [hp2] at h
          try dsimp only at h
          cases hv3 : validate_and_trim_config env wledRaw env.WLED_CONFIG_SCHEMA "wled_preferences" with
          | error e => rw [hv3] at h; cases h
          | ok wled_config =>
            rw [hv3] at h
            try dsimp only at h
            cases hp3 : popDict config2 "melbanks" with
            | error e => rw [hp3] at h; cases h
            | ok p3 =>
              obtain ⟨melRaw, config3⟩ := p3
              rw [hp3] at h
              try dsimp only at h
              cases hv4 : validate_and_trim_config env melRaw env.MELBANKS_CONFIG_SCHEMA "melbanks" with
              | error e => rw [hv4] at h; cases h
              | ok melbanks_config =>
                rw [hv4] at h
                try dsimp only at h
                cases hv5 : validate_and_trim_config env config3 env.CORE_CONFIG_SCHEMA "core" with
                | error e => rw [hv5] at h; cases h
                | ok core_config =>
                  rw [hv5] at h
                  cases h
                  refine ⟨?_, hv5, (vtc_ok_keys hv5).symm ▸ rfl⟩
                  rw [popDict_ok_snd hp3, popDict_ok_snd hp2, popDict_ok_snd hp1]

/-- C1: Atomicity of multi-namespace update: whenever the validation of
any namespace fragment (audio, wled_preferences, melbanks or core) fails
during update_config, the whole operation aborts with that validation
error, and the runtime state — in particular the live configuration
store — is returned exactly as it was before the call: no fragment of
any other namespace has been merged. -/
theorem C1_multi_namespace_update_atomicity (env : Env) (s : MState) (config : AList)
    (e : CfgError) (h : validatePhase env config = .error e) :
    update_config env s config = (.error e, s) := by
  rw [update_config_factor, h]

/-- Witness for C1: a mixed update whose core key is valid but whose
melbanks fragment holds an unknown key aborts with the unknown-key error
and leaves the state untouched. -/
theorem C1_witness :
    update_config toyEnv toyState
        [("port", PyVal.nat 1), ("melbanks", PyVal.dict [("bogus", PyVal.nat 0)])]
      = (.error (.unknownKey "melbanks" "bogus"), toyState) :=
  C1_multi_namespace_update_atomicity toyEnv toyState
    [("port", PyVal.nat 1), ("melbanks", PyVal.dict [("bogus", PyVal.nat 0)])]
    (.unknownKey "melbanks" "bogus") rfl

/-- C2: restart classification: check_need_restart first re-validates
and trims the fragment against the core namespace; if the trimmed
fragment is empty it returns false; if any key of the no-restart policy
set occurs in the trimmed fragment it returns false, even when other
non-exempt keys are present; otherwise it returns true. -/
theorem C2_restart_classification (env : Env) (config core_config : AList)
    (h : validate_and_trim_config env config env.CORE_CONFIG_SCHEMA "core" = .ok core_config) :
    (core_config = [] → check_need_restart env config = .ok false) ∧
    ((∃ k ∈ env.CORE_CONFIG_KEYS_NO_RESTART, hasKeyA core_config k = true) →
      check_need_restart env config = .ok false) ∧
    (core_config ≠ [] → (∀ k ∈ env.CORE_CONFIG_KEYS_NO_RESTART, hasKeyA core_config k = false) →
      check_need_restart env config = .ok true) := by
  unfold check_need_restart
  rw [h]
  refine ⟨?_, ?_, ?_⟩
  · rintro rfl; rfl
  · rintro ⟨k, hk, hkey⟩
    have hany : env.CORE_CONFIG_KEYS_NO_RESTART.any (fun key => hasKeyA core_config key) = true :=
      List.any_eq_true.mpr ⟨k, hk, hkey⟩
    by_cases he : core_config.isEmpty <;> simp [he, hany]
  · intro hne hall
    have hany : env.CORE_CONFIG_KEYS_NO_RESTART.any (fun key => hasKeyA core_config key) = false := by
      rw [List.any_eq_false]
      intro k hk
      simp [hall k hk]
    have he : core_config.isEmpty = false := by
      cases core_config with
      | nil => exact absurd rfl hne
      | cons a l => rfl
    simp [he, hany]

/-- Witness for C2: submitting one non-exempt core key alone yields a
restart decision of true. -/
theorem C2_witness :
    check_need_restart toyEnv [("port", PyVal.nat 5)] = .ok true :=
  (C2_restart_classification toyEnv [("port", PyVal.nat 5)] [("port", PyVal.nat 5)] rfl).2.2
    (List.cons_ne_nil _ _)
    (by intro k hk
        have hk2 : k = "brightness" := by simpa [toyEnv] using hk
        subst hk2
        rfl)

/-- C3: Trimming guarantee: whenever validate_and_trim_config succeeds,
every key of the returned mapping is a key of the submitted fragment —
no schema default for a key the caller never submitted appears. -/
theorem C3_trim_subset (env : Env) (f : AList) (schema : Schema) (node : String) (r : AList)
    (h : validate_and_trim_config env f schema node = .ok r) :
    ∀ k, k ∈ keysA r → k ∈ keysA f := by
  intro k hk
  rw [vtc_ok_keys h] at hk
  exact hk

/-- Witness for C3: a concrete successful validation whose result key is
a submitted key. -/
theorem C3_witness :
    "volume" ∈ keysA [("volume", PyVal.nat 9)] :=
  C3_trim_subset toyEnv [("volume", PyVal.nat 9)] toyEnv.AUDIO_CONFIG_SCHEMA "audio"
    [("volume", PyVal.nat 9)] rfl "volume" (by decide)

/-- C4: Unknown-key rejection: a fragment holding any key outside the
namespace permitted set and different from user_presets makes
validate_and_trim_config fail with an unknown-key error carrying such an
offending key and the namespace; the whole fragment is rejected (the
result is an error, not a partial acceptance). -/
theorem C4_unknown_key_rejection (env : Env) (f : AList) (schema : Schema) (node : String)
    (h : ∃ k ∈ keysA f, k ∉ env.PERMITTED_KEYS node ∧ k ≠ "user_presets") :
    ∃ k', (k' ∈ keysA f ∧ k' ∉ env.PERMITTED_KEYS node ∧ k' ≠ "user_presets") ∧
      validate_and_trim_config env f schema node = .error (.unknownKey node k') := by
  obtain ⟨k', hk', hres⟩ := checkKeys_error_of_bad node h
  exact ⟨k', hk', by unfold validate_and_trim_config; rw [hres]⟩

/-- Witness for C4: a melbanks fragment with a key outside the permitted
set is rejected with an unknown-key error naming key and namespace. -/
theorem C4_witness :
    ∃ k', (k' ∈ keysA [("bogus", PyVal.nat 0)] ∧ k' ∉ toyEnv.PERMITTED_KEYS "melbanks" ∧
        k' ≠ "user_presets") ∧
      validate_and_trim_config toyEnv [("bogus", PyVal.nat 0)] toyEnv.MELBANKS_CONFIG_SCHEMA
        "melbanks" = .error (.unknownKey "melbanks" k') :=
  C4_unknown_key_rejection toyEnv [("bogus", PyVal.nat 0)] toyEnv.MELBANKS_CONFIG_SCHEMA
    "melbanks" ⟨"bogus", by decide, by decide, by decide⟩

/-- A schema that accepts the fragment but omits the key user_presets
from its validated output, exercising the trimming lookup failure path
of validate_and_trim_config. -/
def dropSchema : Schema := fun f => .ok (eraseA f "user_presets")

/-- C9: on success the returned mapping's key list equals the submitted
fragment's key list exactly, and when the schema's validated output
lacks a submitted key the call fails with a key error rather than
silently dropping the key. -/
theorem C9_trim_exact_or_keyerror (env : Env) (f : AList) (schema : Schema) (node : String) :
    (∀ r, validate_and_trim_config env f schema node = .ok r → keysA r = keysA f) ∧
    (∀ v, checkKeys (env.PERMITTED_KEYS node) node (keysA f) = .ok () →
      schema f = .ok v → (∃ k ∈ keysA f, getA v k = none) →
      ∃ k', validate_and_trim_config env f schema node = .error (.missingKey k')) := by
  constructor
  · intro r h
    exact vtc_ok_keys h
  · intro v hck hs hex
    obtain ⟨k', hk'⟩ := trimTo_error_of_none hex
    refine ⟨k', ?_⟩
    unfold validate_and_trim_config
    rw [hck, hs]
    exact hk'

/-- Witness for C9: a successful run returns exactly the submitted keys,
and a schema dropping the always-permitted key user_presets makes the
call fail with a key error. -/
theorem C9_witness :
    keysA [("port", PyVal.nat 2)] = keysA [("port", PyVal.nat 2)] ∧
    ∃ k', validate_and_trim_config toyEnv [("user_presets", PyVal.dict [])] dropSchema "core"
      = .error (.missingKey k') :=
  ⟨(C9_trim_exact_or_keyerror toyEnv [("port", PyVal.nat 2)] toyEnv.CORE_CONFIG_SCHEMA "core").1
      [("port", PyVal.nat 2)] rfl,
   (C9_trim_exact_or_keyerror toyEnv [("user_presets", PyVal.dict [])] dropSchema "core").2
      [] rfl rfl ⟨"user_presets", by decide, rfl⟩⟩

/-- C6: migration failure atomicity: when the imported configuration's
version tag does not match the current version and the migration
transform fails, the import aborts, reporting the migration error as
its only action — no backup is taken, nothing is persisted and the live
configuration is returned unchanged. -/
theorem C6_migration_failure_atomicity (env : Env) (st : AList) (config : AList) (msg : String)
    (hver : env.versionMatches (getA config "configuration_version") = false)
    (hmig : env.migrate_config config = .error msg) :
    postOp env st config = ([Action.respondError (.migrationFailed msg)], st) ∧
    (postOp env st config).1.countP (fun a => isBackup a) = 0 ∧
    (postOp env st config).1.countP (fun a => isPersist a) = 0 := by
  have hmain : postOp env st config = ([Action.respondError (.migrationFailed msg)], st) := by
    unfold postOp resolveVersion
    rw [hver, hmig]
    rfl
  refine ⟨hmain, ?_, ?_⟩ <;> rw [hmain] <;> rfl

/-- Witness for C6: importing a config with an old version tag in the
toy environment (whose migration transform always fails) aborts with
the migration error and changes nothing. -/
theorem C6_witness :
    postOp toyEnv toyLive [("configuration_version", PyVal.str "0.9")]
      = ([Action.respondError (.migrationFailed "no transform registered")], toyLive) :=
  (C6_migration_failure_atomicity toyEnv toyLive
    [("configuration_version", PyVal.str "0.9")] "no transform registered" rfl rfl).1

/-- C7: backup-before-replace ordering: on the reset-to-default path and
on the bulk-import path, any successful run performs exactly one backup
and exactly one replacement of the live configuration, with no
replacement before the backup; the reset path moreover sets the live
configuration to the core schema applied to an empty fragment. -/
theorem C7_backup_before_replace :
    (∀ (env : Env) (st : AList) (t : List Action) (st' : AList),
      deleteOp env st = (t, st', .ok ()) →
      backupOnceBeforeReplace t ∧ env.CORE_CONFIG_SCHEMA [] = .ok st') ∧
    (∀ (env : Env) (st config : AList) (t : List Action) (st' : AList),
      postOp env st config = (t, st') → Action.respondSuccess ∈ t →
      backupOnceBeforeReplace t) := by
  constructor
  · intro env st t st' h
    unfold deleteOp at h
    cases hs : env.CORE_CONFIG_SCHEMA [] with
    | error msg => rw [hs] at h; cases h
    | ok c =>
      rw [hs] at h
      cases h
      exact ⟨⟨rfl, rfl, rfl⟩, rfl⟩
  · intro env st config t st' h hmem
    unfold postOp at h
    cases hres : resolveVersion env config with
    | error e =>
      rw [hres] at h
      cases h
      cases hmem with
      | tail _ h2 => cases h2
    | ok config2 =>
      rw [hres] at h
      try dsimp only at h
      cases ha : postAssemble env config2 with
      | error e =>
        rw [ha] at h
        cases h
        cases hmem with
        | tail _ h2 =>
          cases h2 with
          | tail _ h3 => cases h3
      | ok core =>
        rw [ha] at h
        cases h
        exact ⟨rfl, rfl, rfl⟩

/-- Witness for C7: the reset path and a version-matching import in the
toy environment both respect the backup-before-replace discipline. -/
theorem C7_witness :
    backupOnceBeforeReplace (deleteOp toyEnv toyLive).1 ∧
    backupOnceBeforeReplace (postOp toyEnv toyLive [("configuration_version", PyVal.str "1.0")]).1 := by
  constructor
  · exact ((C7_backup_before_replace).1 toyEnv toyLive _ _ rfl).1
  · exact (C7_backup_before_replace).2 toyEnv toyLive
      [("configuration_version", PyVal.str "1.0")] _ _ rfl
      (List.Mem.tail _ (List.Mem.tail _ (List.Mem.tail _ (List.Mem.tail _ (List.Mem.head _)))))

/-- Projection of the Python return value of an update_config call. -/
def retvalOf (p : Except CfgError UCOk × MState) : Option PyReturn :=
  match p.1 with
  | .ok r => some r.retval
  | .error _ => none

/-- C8 counterexample: a successful update that changes the core key
port — so the set of namespaces that received a changed key is the one
holding core, and the claimed contract would make update_config return
that namespace set — yet the function's return value is None. -/
theorem C8_counterexample :
    retvalOf (update_config toyEnv toyState [("port", PyVal.nat 9999)]) = some PyReturn.none ∧
    retvalOf (update_config toyEnv toyState [("port", PyVal.nat 9999)]) ≠
      some (PyReturn.namespaceSet ["core"]) ∧
    getA (update_config toyEnv toyState [("port", PyVal.nat 9999)]).2.live "port"
      = some (PyVal.nat 9999) ∧
    getA toyState.live "port" = some (PyVal.nat 8888) := by
  refine ⟨rfl, ?_, rfl, rfl⟩
  intro h
  rw [show retvalOf (update_config toyEnv toyState [("port", PyVal.nat 9999)])
      = some PyReturn.none from rfl] at h
  cases h

/-- C8 (amended): update_config returns None on every successful run —
it does not return the set of changed namespaces; its callers persist
the whole configuration and recompute restart impact from the residual
mapping instead. -/
theorem C8_update_config_returns_none (env : Env) (s : MState) (config : AList)
    (r : UCOk) (s' : MState) (h : update_config env s config = (.ok r, s')) :
    r.retval = PyReturn.none := by
  rw [update_config_factor] at h
  cases hv : validatePhase env config with
  | error e => rw [hv] at h; cases h
  | ok v =>
    rw [hv] at h
    have hr := (mutatePhase_ok_spec h).1
    rw [hr]

/-- Witness for C8: a concrete successful update returning None. -/
theorem C8_witness :
    ∃ r s', update_config toyEnv toyState [("port", PyVal.nat 7)] = (.ok r, s') ∧
      r.retval = PyReturn.none :=
  ⟨⟨[("port", PyVal.nat 7)], PyReturn.none⟩,
   (update_config toyEnv toyState [("port", PyVal.nat 7)]).2, rfl,
   C8_update_config_returns_none toyEnv toyState [("port", PyVal.nat 7)] _ _ rfl⟩

/-- C10: update_config destructively removes the audio,
wled_preferences and melbanks keys from the caller's mapping: the
residual mapping it hands back equals the input with exactly those three
keys removed; on the PUT success path the config-update event fired
after update_config carries that residual mapping (it is the last event
appended to the state) and check_need_restart is evaluated on the same
residual mapping. -/
theorem C10_residual_observation (env : Env) (s : MState) (config : AList) :
    (∀ r s', update_config env s config = (.ok r, s') →
      r.residual = eraseA (eraseA (eraseA config "audio") "wled_preferences") "melbanks") ∧
    (∀ out s', putApply env s config = (.ok out, s') →
      out.firedEvent = eraseA (eraseA (eraseA config "audio") "wled_preferences") "melbanks" ∧
      check_need_restart env out.firedEvent = .ok out.needRestart ∧
      s'.events.getLast? = some out.firedEvent) := by
  have hres : ∀ r s', update_config env s config = (.ok r, s') →
      r.residual = eraseA (eraseA (eraseA config "audio") "wled_preferences") "melbanks" := by
    intro r s' h
    rw [update_config_factor] at h
    cases hv : validatePhase env config with
    | error e => rw [hv] at h; cases h
    | ok v =>
      rw [hv] at h
      have hr := (mutatePhase_ok_spec h).1
      have hspec := (validatePhase_ok_spec hv).1
      rw [hr]
      exact hspec
  refine ⟨hres, ?_⟩
  intro out s' h
  unfold putApply at h
  cases hu : update_config env s config with
  | mk exr s1 =>
    rw [hu] at h
    cases exr with
    | error e => cases h
    | ok r =>
      try dsimp only at h
      cases hc : check_need_restart env r.residual with
      | error e => rw [hc] at h; cases h
      | ok b =>
        rw [hc] at h
        cases h
        have h1 := hres r s1 hu
        refine ⟨h1, hc, ?_⟩
        simp

/-- C5: merge policy: on a successful update whose validated fragments
are given by validatePhase, the audio and melbanks fragments are
shallow-merged into their live nested dicts, the core fragment is
shallow-merged into the live top level — each validated key overwrites
the corresponding live key, every other live key is unchanged — and the
wled_preferences fragment is applied by a two-level merge: a validated
top-level key already present in the live wled_preferences namespace
has its nested mapping shallow-merged with the new value, and a new key
is set wholesale. -/
theorem C5_merge_policy (env : Env) (s : MState) (config : AList) (v : Fragments)
    (r : UCOk) (s' : MState) (a0 m0 w0 : AList)
    (hv : validatePhase env config = .ok v)
    (h : update_config env s config = (.ok r, s'))
    (ha : getA s.live "audio" = some (.dict a0))
    (hm : getA s.live "melbanks" = some (.dict m0))
    (hw : getA s.live "wled_preferences" = some (.dict w0))
    (hndc : (keysA v.core_config).Nodup)
    (hndw : (keysA v.wled_config).Nodup) :
    getA s'.live "audio" = some (.dict (updateA a0 v.audio_config)) ∧
    getA s'.live "melbanks" = some (.dict (updateA m0 v.melbanks_config)) ∧
    (∀ k, k ∈ keysA v.core_config → getA s'.live k = getA v.core_config k) ∧
    (∀ k, k ∉ keysA v.core_config → k ≠ "audio" → k ≠ "melbanks" → k ≠ "wled_preferences" →
      getA s'.live k = getA s.live k) ∧
    (∃ w1, getA s'.live "wled_preferences" = some (.dict w1) ∧
      (∀ k, k ∉ keysA v.wled_config → getA w1 k = getA w0 k) ∧
      (∀ k vv, (k, vv) ∈ v.wled_config → mergeStep w0 k vv w1)) := by
  rw [update_config_factor, hv] at h
  obtain ⟨hr, live1, live2, live4, h1, h2, h3, hlive⟩ := mutatePhase_ok_spec h
  obtain ⟨hresid, hcorev, hkeys⟩ := validatePhase_ok_spec hv
  have hnot3 : ∀ k, k ∈ keysA v.core_config →
      k ≠ "audio" ∧ k ≠ "wled_preferences" ∧ k ≠ "melbanks" := by
    intro k hk
    rw [hkeys, hresid] at hk
    have h5 := mem_keysA_eraseA.mp hk
    have h6 := mem_keysA_eraseA.mp h5.2
    have h7 := mem_keysA_eraseA.mp h6.2
    exact ⟨h7.1, h6.1, h5.1⟩
  have haudio_nc : "audio" ∉ keysA v.core_config := fun hmem => (hnot3 _ hmem).1 rfl
  have hwp_nc : "wled_preferences" ∉ keysA v.core_config := fun hmem => (hnot3 _ hmem).2.1 rfl
  have hmel_nc : "melbanks" ∉ keysA v.core_config := fun hmem => (hnot3 _ hmem).2.2 rfl
  have hne_am : ("audio" : String) ≠ "melbanks" := by decide
  have hne_aw : ("audio" : String) ≠ "wled_preferences" := by decide
  have hne_mw : ("melbanks" : String) ≠ "wled_preferences" := by decide
  have hne_ma : ("melbanks" : String) ≠ "audio" := by decide
  have hne_wm : ("wled_preferences" : String) ≠ "melbanks" := by decide
  have hne_wa : ("wled_preferences" : String) ≠ "audio" := by decide
  obtain ⟨a0', ha0', hlive1⟩ := updateNested_ok_spec h1
  have haa : a0' = a0 := by
    have hx := ha0'.symm.trans ha
    injection hx with hy
    injection hy with hz
  subst haa
  have hm1 : getA live1 "melbanks" = some (.dict m0) := by
    rw [hlive1, getA_setA_ne _ _ _ _ hne_ma]
    exact hm
  obtain ⟨m0', hm0', hlive2⟩ := updateNested_ok_spec h2
  have hmm : m0' = m0 := by
    have hx := hm0'.symm.trans hm1
    injection hx with hy
    injection hy with hz
  subst hmm
  refine ⟨?_, ?_, ?_, ?_, ?_⟩
  · have f1 := wledApply_frame hne_aw v.wled_config _ h3
    rw [hlive, f1, getA_updateA_notMem _ _ _ haudio_nc, hlive2,
      getA_setA_ne _ _ _ _ hne_am, hlive1, getA_setA_self]
  · have f1 := wledApply_frame hne_mw v.wled_config _ h3
    rw [hlive, f1, getA_updateA_notMem _ _ _ hmel_nc, hlive2, getA_setA_self]
  · intro k hk
    have hks := hnot3 k hk
    have f1 := wledApply_frame hks.2.1 v.wled_config _ h3
    rw [hlive, f1, getA_updateA_mem _ _ _ hndc hk]
  · intro k hk hka hkm hkw
    have f1 := wledApply_frame hkw v.wled_config _ h3
    rw [hlive, f1, getA_updateA_notMem _ _ _ hk, hlive2,
      getA_setA_ne _ _ _ _ hkm, hlive1, getA_setA_ne _ _ _ _ hka]
  · have hwl3 : getA (updateA live2 v.core_config) "wled_preferences" = some (.dict w0) := by
      rw [getA_updateA_notMem _ _ _ hwp_nc, hlive2, getA_setA_ne _ _ _ _ hne_wm,
        hlive1, getA_setA_ne _ _ _ _ hne_wa]
      exact hw
    obtain ⟨w1, hw1, hfr, hms⟩ := wledApply_ok_char v.wled_config _ w0 h3 hwl3 hndw
    refine ⟨w1, ?_, hfr, hms⟩
    rw [hlive]
    exact hw1

/-- A concrete multi-namespace update exercising every merge policy at
once: a core key, an audio key, a two-level wled_preferences merge into
an existing device plus a brand-new device, and a melbanks key. -/
def cfg5 : AList :=
  [("brightness", PyVal.nat 3),
   ("audio", PyVal.dict [("volume", PyVal.nat 70)]),
   ("wled_preferences", PyVal.dict
     [("dev1", PyVal.dict [("timeout", PyVal.nat 5)]),
      ("dev2", PyVal.dict [("ip", PyVal.str "10.0.0.9")])]),
   ("melbanks", PyVal.dict [("bands", PyVal.nat 12)])]

/-- The validated fragments of cfg5 in the toy environment. -/
def frag5 : Fragments where
  audio_config := [("volume", PyVal.nat 70)]
  wled_config := [("dev1", PyVal.dict [("timeout", PyVal.nat 5)]),
    ("dev2", PyVal.dict [("ip", PyVal.str "10.0.0.9")])]
  melbanks_config := [("bands", PyVal.nat 12)]
  core_config := [("brightness", PyVal.nat 3)]
  residual := [("brightness", PyVal.nat 3)]

/-- Witness for C5: in the concrete run of cfg5 the live audio dict is
the shallow merge of the old audio dict with the submitted fragment, and
the wled_preferences key dev1, already present, is merged one level deep
(its old ip entry is preserved next to the new timeout entry). -/
theorem C5_witness :
    getA (update_config toyEnv toyState cfg5).2.live "audio"
        = some (.dict (updateA [("device", PyVal.str "mic0"), ("volume", PyVal.nat 50)]
            [("volume", PyVal.nat 70)])) ∧
    (∃ w1, getA (update_config toyEnv toyState cfg5).2.live "wled_preferences"
        = some (.dict w1) ∧
      mergeStep [("dev1", PyVal.dict [("ip", PyVal.str "10.0.0.2")])] "dev1"
        (PyVal.dict [("timeout", PyVal.nat 5)]) w1) := by
  obtain ⟨c1, c2, c3, c4, w1, hw1, hfr, hms⟩ :=
    C5_merge_policy toyEnv toyState cfg5 frag5
      ⟨[("brightness", PyVal.nat 3)], PyReturn.none⟩
      (update_config toyEnv toyState cfg5).2
      [("device", PyVal.str "mic0"), ("volume", PyVal.nat 50)]
      [("bands", PyVal.nat 24)]
      [("dev1", PyVal.dict [("ip", PyVal.str "10.0.0.2")])]
      rfl rfl rfl rfl rfl (by decide) (by decide)
  exact ⟨c1, w1, hw1, hms "dev1" (PyVal.dict [("timeout", PyVal.nat 5)]) (List.Mem.head _)⟩

/-- A concrete PUT payload mixing a core key and an audio fragment. -/
def cfg10 : AList :=
  [("host", PyVal.str "h2"), ("audio", PyVal.dict [("volume", PyVal.nat 61)])]

/-- Witness for C10: the residual of the concrete run is the input with
the three namespace keys removed, and the PUT path evaluates
check_need_restart exactly on the fired residual mapping. -/
theorem C10_witness :
    (⟨[("host", PyVal.str "h2")], PyReturn.none⟩ : UCOk).residual
        = eraseA (eraseA (eraseA cfg10 "audio") "wled_preferences") "melbanks" ∧
    ∃ out s', putApply toyEnv toyState cfg10 = (.ok out, s') ∧
      check_need_restart toyEnv out.firedEvent = .ok out.needRestart := by
  constructor
  · exact (C10_residual_observation toyEnv toyState cfg10).1 _
      (update_config toyEnv toyState cfg10).2 rfl
  · refine ⟨⟨[("host", PyVal.str "h2")], (putApply toyEnv toyState cfg10).2.live, true⟩,
      (putApply toyEnv toyState cfg10).2, rfl, ?_⟩
    exact ((C10_residual_observation toyEnv toyState cfg10).2 _ _ rfl).2.1

end LedfxConfigApi
